import Mathlib

/-!
Verification development for the Azure VM price scanner repository
(scripts/azure_price_scanner.py and scripts/vm_specs_lookup.py).

The Python code is shallowly embedded: Python dicts of known shape become
structures, JSON field values become an inductive `JsonVal`, machine floats
become rationals (all prices relevant here are exactly representable and no
operation in the claims is sensitive to binary rounding), absent fields
become `Option`, and Python truthiness / `or` chains are modelled
explicitly.  Regular-expression searches are embedded as executable
functions that reproduce the leftmost-match-with-greedy-backtracking
semantics of the Python `re` module for the concrete patterns appearing in
the source.
-/

/-- ASCII lowercasing, modelling the Python `str.lower()` on the ASCII
strings handled by this program. -/
def pyLower (s : String) : String := String.mk (s.toList.map Char.toLower)

/-- Python string truthiness based `or` for strings: the empty string is
falsy, so `a or b` yields `b` exactly when `a` is empty. -/
def pyOrS (a b : String) : String := if a = "" then b else a

/-- Does `pat` occur at the start of `l`, character by character. -/
def startsWithCL : List Char → List Char → Bool
  | [], _ => true
  | _ :: _, [] => false
  | p :: ps, c :: cs => p == c && startsWithCL ps cs

/-- Substring occurrence on character lists, modelling the Python
`pat in hay` test for strings. -/
def containsCL (pat : List Char) : List Char → Bool
  | [] => startsWithCL pat []
  | l@(_ :: rest) => startsWithCL pat l || containsCL pat rest

/-- The Python substring test `pat in hay`. -/
def strContains (hay pat : String) : Bool := containsCL pat.toList hay.toList

/-- Value of a run of decimal digit characters, used where the Python code
applies `int` to a regex digit group (which never fails on such a group). -/
def digitsToNat (l : List Char) : ℕ := l.foldl (fun acc c => 10 * acc + (c.toNat - 48)) 0

/-- JSON field value as delivered by the pricing API: null, a number, or a
string.  An absent key is modelled as `JsonVal.jnull` where the code uses
`item.get(k)` with default `None`. -/
inductive JsonVal where
  | jnull : JsonVal
  | jnum : ℚ → JsonVal
  | jstr : String → JsonVal
deriving DecidableEq

/-- Python truthiness of a JSON value: `None`, `0` and `""` are falsy. -/
def pyTruthy : JsonVal → Bool
  | .jnull => false
  | .jnum q => q != 0
  | .jstr s => s != ""

/-- Python `a or b` on JSON values. -/
def pyOrJ (a b : JsonVal) : JsonVal := if pyTruthy a then a else b

/-- Model of Python `float(s)` on a string: strip surrounding whitespace,
then an optional sign followed by a plain decimal literal
(`digits`, `digits.digits`, `.digits` or `digits.`).  Scientific notation,
underscores, infinities and NaN are outside the subset exercised by this
program and are not modelled; on such inputs the real `float` and this
model both simply fail or are never reached by the claims. -/
def parseFloatStr (s : String) : Option ℚ :=
  let l := ((s.toList.dropWhile Char.isWhitespace).reverse.dropWhile Char.isWhitespace).reverse
  let signed : ℤ × List Char :=
    match l with
    | '-' :: r => (-1, r)
    | '+' :: r => (1, r)
    | r => (1, r)
  let sign := signed.1
  let l1 := signed.2
  let intPart := l1.takeWhile Char.isDigit
  let r2 := l1.dropWhile Char.isDigit
  match r2 with
  | [] => if intPart.isEmpty then none else some (mkRat (sign * digitsToNat intPart) 1)
  | '.' :: r3 =>
    let frac := r3.takeWhile Char.isDigit
    let r4 := r3.dropWhile Char.isDigit
    if ¬ r4.isEmpty then none
    else if intPart.isEmpty ∧ frac.isEmpty then none
    else some (mkRat (sign * (digitsToNat intPart * 10 ^ frac.length + digitsToNat frac))
                     (10 ^ frac.length))
  | _ => none

/-- Model of Python `float(v)` on a JSON value, as an `Option`: `none`
models the `ValueError`/`TypeError` that the call sites catch. -/
def pyFloat? : JsonVal → Option ℚ
  | .jnull => none
  | .jnum q => some q
  | .jstr s => parseFloatStr s

/-- VM specification pair produced by the specs resolver: each field is a
resolved number or unknown (`none`). -/
structure Specs where
  vcpus : Option ℚ
  memoryGB : Option ℚ
deriving DecidableEq

/-- Slice 1 of the `VM_SPECS_LOOKUP` table (split only to keep elaboration cheap; concatenated below in source order). -/
def vmSpecsLookupPart1 : List (String × Specs) := [
("b1ls", ⟨some 1, some (mkRat 1 2)⟩),
  ("b1s", ⟨some 1, some 1⟩),
  ("b1ms", ⟨some 1, some 2⟩),
  ("b2s", ⟨some 2, some 4⟩),
  ("b2ms", ⟨some 2, some 8⟩),
  ("b2ts", ⟨some 2, some 8⟩),
  ("b4ms", ⟨some 4, some 16⟩),
  ("b8ms", ⟨some 8, some 32⟩),
  ("b12ms", ⟨some 12, some 48⟩),
  ("b16ms", ⟨some 16, some 64⟩),
  ("b20ms", ⟨some 20, some 80⟩),
  ("d1", ⟨some 1, some (mkRat 7 2)⟩),
  ("d2", ⟨some 2, some 7⟩),
  ("d3", ⟨some 4, some 14⟩),
  ("d4", ⟨some 8, some 28⟩),
  ("d5", ⟨some 16, some 56⟩),
  ("d2s", ⟨some 2, some 8⟩),
  ("d4s", ⟨some 4, some 16⟩),
  ("d8s", ⟨some 8, some 32⟩),
  ("d16s", ⟨some 16, some 64⟩),
  ("d32s", ⟨some 32, some 128⟩),
  ("d48s", ⟨some 48, some 192⟩),
  ("d64s", ⟨some 64, some 256⟩),
  ("d2ds", ⟨some 2, some 8⟩),
  ("d4ds", ⟨some 4, some 16⟩),
  ("d8ds", ⟨some 8, some 32⟩),
  ("d16ds", ⟨some 16, some 64⟩),
  ("d32ds", ⟨some 32, some 128⟩),
  ("d48ds", ⟨some 48, some 192⟩),
  ("d64ds", ⟨some 64, some 256⟩),
  ("d2d", ⟨some 2, some 8⟩),
  ("d4d", ⟨some 4, some 16⟩),
  ("d8d", ⟨some 8, some 32⟩),
  ("d16d", ⟨some 16, some 64⟩),
  ("d32d", ⟨some 32, some 128⟩),
  ("d48d", ⟨some 48, some 192⟩),
  ("d64d", ⟨some 64, some 256⟩),
  ("e2", ⟨some 2, some 16⟩),
  ("e4", ⟨some 4, some 32⟩),
  ("e8", ⟨some 8, some 64⟩),
  ("e16", ⟨some 16, some 128⟩),
  ("e20", ⟨some 20, some 160⟩),
  ("e32", ⟨some 32, some 256⟩),
  ("e48", ⟨some 48, some 384⟩),
  ("e64", ⟨some 64, some 432⟩)
]

/-- Slice 2 of the `VM_SPECS_LOOKUP` table (split only to keep elaboration cheap; concatenated below in source order). -/
def vmSpecsLookupPart2 : List (String × Specs) := [
  ("e96", ⟨some 96, some 672⟩),
  ("e2s", ⟨some 2, some 16⟩),
  ("e4s", ⟨some 4, some 32⟩),
  ("e8s", ⟨some 8, some 64⟩),
  ("e16s", ⟨some 16, some 128⟩),
  ("e20s", ⟨some 20, some 160⟩),
  ("e32s", ⟨some 32, some 256⟩),
  ("e48s", ⟨some 48, some 384⟩),
  ("e64s", ⟨some 64, some 432⟩),
  ("e96s", ⟨some 96, some 672⟩),
  ("e2ds", ⟨some 2, some 16⟩),
  ("e4ds", ⟨some 4, some 32⟩),
  ("e8ds", ⟨some 8, some 64⟩),
  ("e16ds", ⟨some 16, some 128⟩),
  ("e20ds", ⟨some 20, some 160⟩),
  ("e32ds", ⟨some 32, some 256⟩),
  ("e48ds", ⟨some 48, some 384⟩),
  ("e64ds", ⟨some 64, some 432⟩),
  ("e96ds", ⟨some 96, some 672⟩),
  ("f2", ⟨some 2, some 4⟩),
  ("f4", ⟨some 4, some 8⟩),
  ("f8", ⟨some 8, some 16⟩),
  ("f16", ⟨some 16, some 32⟩),
  ("f32", ⟨some 32, some 64⟩),
  ("f48", ⟨some 48, some 96⟩),
  ("f64", ⟨some 64, some 128⟩),
  ("f72", ⟨some 72, some 144⟩),
  ("f2s", ⟨some 2, some 4⟩),
  ("f4s", ⟨some 4, some 8⟩),
  ("f8s", ⟨some 8, some 16⟩),
  ("f16s", ⟨some 16, some 32⟩),
  ("f32s", ⟨some 32, some 64⟩),
  ("f48s", ⟨some 48, some 96⟩),
  ("f64s", ⟨some 64, some 128⟩),
  ("f72s", ⟨some 72, some 144⟩),
  ("m8", ⟨some 8, some 218⟩),
  ("m16", ⟨some 16, some 436⟩),
  ("m32", ⟨some 32, some 872⟩),
  ("m64", ⟨some 64, some 1742⟩),
  ("m128", ⟨some 128, some 3892⟩),
  ("m192", ⟨some 192, some 4096⟩),
  ("m208", ⟨some 208, some 5700⟩),
  ("m416", ⟨some 416, some 11400⟩),
  ("m8ms", ⟨some 8, some 218⟩),
  ("m16ms", ⟨some 16, some 436⟩)
]

/-- Slice 3 of the `VM_SPECS_LOOKUP` table (split only to keep elaboration cheap; concatenated below in source order). -/
def vmSpecsLookupPart3 : List (String × Specs) := [
  ("m32ms", ⟨some 32, some 872⟩),
  ("m64ms", ⟨some 64, some 1742⟩),
  ("m128ms", ⟨some 128, some 3892⟩),
  ("m192ms", ⟨some 192, some 4096⟩),
  ("m208ms", ⟨some 208, some 5700⟩),
  ("m416ms", ⟨some 416, some 11400⟩),
  ("m8s", ⟨some 8, some 218⟩),
  ("m16s", ⟨some 16, some 436⟩),
  ("m32s", ⟨some 32, some 872⟩),
  ("m64s", ⟨some 64, some 1742⟩),
  ("m128s", ⟨some 128, some 3892⟩),
  ("m192s", ⟨some 192, some 4096⟩),
  ("m208s", ⟨some 208, some 5700⟩),
  ("m416s", ⟨some 416, some 11400⟩),
  ("2v3", ⟨some 2, some 8⟩),
  ("4v3", ⟨some 4, some 16⟩),
  ("8v3", ⟨some 8, some 32⟩),
  ("16v3", ⟨some 16, some 64⟩),
  ("32v3", ⟨some 32, some 128⟩),
  ("64v3", ⟨some 64, some 256⟩),
  ("96v3", ⟨some 96, some 384⟩),
  ("2v4", ⟨some 2, some 8⟩),
  ("4v4", ⟨some 4, some 16⟩),
  ("8v4", ⟨some 8, some 32⟩),
  ("16v4", ⟨some 16, some 64⟩),
  ("32v4", ⟨some 32, some 128⟩),
  ("64v4", ⟨some 64, some 256⟩),
  ("96v4", ⟨some 96, some 384⟩),
  ("2v5", ⟨some 2, some 8⟩),
  ("4v5", ⟨some 4, some 16⟩),
  ("8v5", ⟨some 8, some 32⟩),
  ("16v5", ⟨some 16, some 64⟩),
  ("32v5", ⟨some 32, some 128⟩),
  ("64v5", ⟨some 64, some 256⟩),
  ("96v5", ⟨some 96, some 384⟩),
  ("a0", ⟨some 1, some (mkRat 3 4)⟩),
  ("a1", ⟨some 1, some (mkRat 7 4)⟩),
  ("a2", ⟨some 2, some (mkRat 7 2)⟩),
  ("a3", ⟨some 4, some 7⟩),
  ("a4", ⟨some 8, some 14⟩),
  ("a5", ⟨some 2, some 14⟩),
  ("a6", ⟨some 4, some 28⟩),
  ("a7", ⟨some 8, some 56⟩),
  ("a8", ⟨some 8, some 56⟩),
  ("a9", ⟨some 16, some 112⟩)
]

/-- Slice 4 of the `VM_SPECS_LOOKUP` table (split only to keep elaboration cheap; concatenated below in source order). -/
def vmSpecsLookupPart4 : List (String × Specs) := [
  ("a10", ⟨some 8, some 56⟩),
  ("a11", ⟨some 16, some 112⟩),
  ("nc6", ⟨some 6, some 56⟩),
  ("nc12", ⟨some 12, some 112⟩),
  ("nc24", ⟨some 24, some 224⟩),
  ("nc24r", ⟨some 24, some 224⟩),
  ("nc6s", ⟨some 6, some 112⟩),
  ("nc12s", ⟨some 12, some 224⟩),
  ("nc24s", ⟨some 24, some 448⟩),
  ("nc24rs", ⟨some 24, some 448⟩),
  ("nc6sv3", ⟨some 6, some 112⟩),
  ("nc12sv3", ⟨some 12, some 224⟩),
  ("nc24sv3", ⟨some 24, some 448⟩),
  ("nc24rsv3", ⟨some 24, some 448⟩),
  ("nv6", ⟨some 6, some 56⟩),
  ("nv12", ⟨some 12, some 112⟩),
  ("nv24", ⟨some 24, some 224⟩),
  ("nv6s", ⟨some 6, some 112⟩),
  ("nv12s", ⟨some 12, some 224⟩),
  ("nv24s", ⟨some 24, some 448⟩),
  ("h8", ⟨some 8, some 56⟩),
  ("h16", ⟨some 16, some 112⟩),
  ("h8r", ⟨some 8, some 56⟩),
  ("h16r", ⟨some 16, some 112⟩),
  ("h8m", ⟨some 8, some 112⟩),
  ("h16m", ⟨some 16, some 224⟩),
  ("h16mr", ⟨some 16, some 224⟩),
  ("l8s", ⟨some 8, some 64⟩),
  ("l16s", ⟨some 16, some 128⟩),
  ("l32s", ⟨some 32, some 256⟩),
  ("l48s", ⟨some 48, some 384⟩),
  ("l64s", ⟨some 64, some 512⟩),
  ("l80s", ⟨some 80, some 640⟩),
  ("g1", ⟨some 2, some 28⟩),
  ("g2", ⟨some 4, some 56⟩),
  ("g3", ⟨some 8, some 112⟩),
  ("g4", ⟨some 16, some 224⟩),
  ("g5", ⟨some 32, some 448⟩),
  ("dasv4", ⟨some 2, some 8⟩),
  ("easv4", ⟨some 2, some 16⟩),
  ("fasv4", ⟨some 2, some 4⟩),
  ("dcsv2", ⟨some 2, some 8⟩),
  ("ecsv2", ⟨some 2, some 16⟩),
  ("spot", ⟨none, none⟩),
  ("lowpriority", ⟨none, none⟩)
]

/-- Slice 5 of the `VM_SPECS_LOOKUP` table (split only to keep elaboration cheap; concatenated below in source order). -/
def vmSpecsLookupPart5 : List (String × Specs) := [
  ("2a", ⟨some 2, some 4⟩),
  ("4a", ⟨some 4, some 8⟩),
  ("8a", ⟨some 8, some 16⟩),
  ("16a", ⟨some 16, some 32⟩),
  ("2d", ⟨some 2, some 8⟩),
  ("4d", ⟨some 4, some 16⟩),
  ("8d", ⟨some 8, some 32⟩),
  ("16d", ⟨some 16, some 64⟩),
  ("2e", ⟨some 2, some 16⟩),
  ("4e", ⟨some 4, some 32⟩),
  ("8e", ⟨some 8, some 64⟩),
  ("16e", ⟨some 16, some 128⟩),
  ("2f", ⟨some 2, some 4⟩),
  ("4f", ⟨some 4, some 8⟩),
  ("8f", ⟨some 8, some 16⟩),
  ("16f", ⟨some 16, some 32⟩),
  ("2m", ⟨some 2, some 16⟩),
  ("4m", ⟨some 4, some 32⟩),
  ("8m", ⟨some 8, some 64⟩),
  ("16m", ⟨some 16, some 128⟩),
  ("416", ⟨some 416, some 5700⟩),
  ("448", ⟨some 448, some 6144⟩),
  ("480", ⟨some 480, some 6400⟩),
  ("512", ⟨some 512, some 8192⟩),
  ("576", ⟨some 576, some 9216⟩),
  ("672", ⟨some 672, some 10752⟩),
  ("768", ⟨some 768, some 12288⟩),
  ("896", ⟨some 896, some 14336⟩),
  ("1024", ⟨some 1024, some 16384⟩)
]

/-- The static specs lookup table `VM_SPECS_LOOKUP`, as an association list in the insertion order of the Python dict literal.  The source repeats the key "h16r" with an identical value; a Python dict literal collapses the repeat onto the first position, so it appears once here. -/
def VM_SPECS_LOOKUP : List (String × Specs) :=
  vmSpecsLookupPart1 ++ vmSpecsLookupPart2 ++ vmSpecsLookupPart3 ++ vmSpecsLookupPart4 ++ vmSpecsLookupPart5

/-- One pass of the Python `re.sub(r'standard_|_v[0-9]+|promo|_', '', name)`
normalization in `get_vm_specs`: scan left to right, at each position try
the alternatives in order (a literal "standard_", then "_v" followed by one
or more digits, then "promo", then a lone underscore), remove the leftmost
match and continue after it, otherwise keep the character.  The first
argument is fuel for structural recursion; every step consumes at least one
character and one unit of fuel, so fuel equal to the length of the list is
always sufficient and the fuel-exhausted case is unreachable. -/
def cleanAuxF : Nat → List Char → List Char
  | 0, l => l
  | _ + 1, [] => []
  | f + 1, 's' :: 't' :: 'a' :: 'n' :: 'd' :: 'a' :: 'r' :: 'd' :: '_' :: rest => cleanAuxF f rest
  | f + 1, 'p' :: 'r' :: 'o' :: 'm' :: 'o' :: rest => cleanAuxF f rest
  | f + 1, '_' :: 'v' :: c :: rest =>
      if c.isDigit then cleanAuxF f (List.dropWhile Char.isDigit rest)
      else 'v' :: cleanAuxF f (c :: rest)
  | f + 1, '_' :: rest => cleanAuxF f rest
  | f + 1, c :: rest => c :: cleanAuxF f rest

/-- The `re.sub` scan with sufficient fuel. -/
def cleanAux (l : List Char) : List Char := cleanAuxF l.length l

/-- Normalization of a VM name in `get_vm_specs`: lowercase, apply the
`re.sub` above, then `replace(" ", "")`. -/
def cleanName (s : String) : String :=
  String.mk ((cleanAux (pyLower s).toList).filter (fun c => c ≠ ' '))

/-- Exact lookup in the table by key, modelling a Python dict access. -/
def lookupSpecs (key : String) : Option Specs :=
  (VM_SPECS_LOOKUP.find? (fun p => p.1 == key)).map (fun p => p.2)

/-- The resolver fallback scan `for pattern, specs in VM_SPECS_LOOKUP.items()`:
return the specs of the first key, in table insertion order, that occurs as
a substring of the cleaned name. -/
def partialScan (clean : String) : Option Specs :=
  (VM_SPECS_LOOKUP.find? (fun p => strContains clean p.1)).map (fun p => p.2)

/-- Leftmost match of the Python `re.search(r'([a-z]*\d+[a-z]*)', clean)`:
at each start position, a run of ASCII lowercase letters followed by at
least one digit matches, with greedy digit and trailing-letter runs. -/
def sizeToken : List Char → Option (List Char)
  | [] => none
  | l@(_ :: rest) =>
    let letters := l.takeWhile Char.isLower
    let r1 := l.dropWhile Char.isLower
    match r1 with
    | d :: _ =>
      if d.isDigit then
        some (letters ++ r1.takeWhile Char.isDigit ++
              (r1.dropWhile Char.isDigit).takeWhile Char.isLower)
      else sizeToken rest
    | [] => sizeToken rest

/-- Leftmost match of the Python `re.search(r'(\d+)', clean)`: the first
maximal run of digits. -/
def firstDigitRun : List Char → Option (List Char)
  | [] => none
  | c :: rest =>
    if c.isDigit then some ((c :: rest).takeWhile Char.isDigit)
    else firstDigitRun rest

/-- The canonical numeric sizes accepted by the estimation heuristic. -/
def canonicalSizes : List String := ["2", "4", "8", "16", "32", "64", "128", "256"]

/-- The numeric estimation tail of `get_vm_specs`: if the first digit run
of the cleaned name is a canonical size n, estimate n vCPUs and 4 n GB. -/
def numericFallback (clean : String) : Specs :=
  match firstDigitRun clean.toList with
  | some run =>
    let key := String.mk run
    if key ∈ canonicalSizes then
      ⟨some ((digitsToNat run : ℕ) : ℚ), some (((digitsToNat run * 4 : ℕ)) : ℚ)⟩
    else ⟨none, none⟩
  | none => ⟨none, none⟩

/-- The specs resolver `get_vm_specs` of scripts/vm_specs_lookup.py.  The
argument is `none` for a Python `None` input; `if not vm_name` also catches
the empty string.  Precedence: exact table match on the cleaned name, then
the substring scan, then exact match on an extracted size-like token, then
the numeric estimation heuristic, else unknown/unknown. -/
def get_vm_specs (vmName : Option String) : Specs :=
  match vmName with
  | none => ⟨none, none⟩
  | some s =>
    if s = "" then ⟨none, none⟩
    else
      let clean := cleanName s
      match lookupSpecs clean with
      | some specs => specs
      | none =>
        match partialScan clean with
        | some specs => specs
        | none =>
          match sizeToken clean.toList with
          | some run =>
            match lookupSpecs (String.mk run) with
            | some specs => specs
            | none => numericFallback clean
          | none => numericFallback clean


/-- Remove every occurrence of a nonempty pattern from a character list,
scanning left to right over non-overlapping matches: the Python
`text.replace(pat, "")`.  Fuel-based like `cleanAuxF`; fuel equal to the
length of the list suffices. -/
def removeAllF (pat : List Char) : Nat → List Char → List Char
  | 0, l => l
  | _ + 1, [] => []
  | f + 1, c :: rest =>
    if startsWithCL pat (c :: rest) ∧ ¬ pat.isEmpty then
      removeAllF pat f ((c :: rest).drop pat.length)
    else c :: removeAllF pat f rest

/-- The Python `s.replace(pat, "")`. -/
def strRemoveAll (s pat : String) : String :=
  String.mk (removeAllF pat.toList s.toList.length s.toList)

/-- Try `f` at each candidate length from `n` down to `0`, returning the
first success: the backtracking order of a greedy regex quantifier. -/
def descend (f : Nat → Option α) : Nat → Option α
  | 0 => f 0
  | n + 1 =>
    match f (n + 1) with
    | some r => some r
    | none => descend f n

/-- Attempt of the pattern `([A-Za-z]+)\d*[a-z]*\s*v?(\d+)` (compiled with
`re.IGNORECASE`, so `[a-z]` matches any ASCII letter and `v` matches both
cases) anchored at the head of `l`, with the backtracking preferences of
the Python engine: each greedy quantifier tries its longest run first; the
optional `v` prefers to consume; whitespace runs need no backtracking
because a shorter run leaves a whitespace character that can satisfy
neither `v?` nor `\d+`.  Returns the two captured groups. -/
def seriesMatchAt (l : List Char) : Option (List Char × List Char) :=
  descend (fun k =>
    if k = 0 then none
    else
      let r1 := l.drop k
      descend (fun d =>
        let r2 := r1.drop d
        descend (fun m =>
          let r3 := r2.drop m
          let r4 := r3.dropWhile Char.isWhitespace
          let grab : List Char → Option (List Char × List Char) := fun r =>
            match r with
            | c :: _ =>
              if c.isDigit then some (l.take k, r.takeWhile Char.isDigit) else none
            | [] => none
          match r4 with
          | c :: r5 =>
            if c = 'v' ∨ c = 'V' then
              match grab r5 with
              | some res => some res
              | none => grab r4
            else grab r4
          | [] => none)
          (r2.takeWhile Char.isAlpha).length)
        (r1.takeWhile Char.isDigit).length)
    (l.takeWhile Char.isAlpha).length

/-- Leftmost match of `SERIES_PATTERN.search`: try `seriesMatchAt` at each
start position from the left. -/
def seriesSearch : List Char → Option (List Char × List Char)
  | [] => none
  | l@(_ :: rest) =>
    match seriesMatchAt l with
    | some r => some r
    | none => seriesSearch rest

/-- Result record of `extract_series_info`. -/
structure SeriesInfo where
  series : Option String
  family : Option String
  size : String
deriving DecidableEq

/-- The `extract_series_info` method of the scanner: search the ARM SKU
name (falling back to the SKU name) with `SERIES_PATTERN`; on a match the
series is the letter group followed by "v" and the digit group; otherwise
fall back to the leading alphabetic run after removing "Standard_".  The
size is `sku_name or arm_sku_name` (the Python falsy `or`). -/
def extract_series_info (skuName armSkuName : String) : SeriesInfo :=
  let sourceText := pyOrS armSkuName (pyOrS skuName "")
  match seriesSearch sourceText.toList with
  | some (fam, gen) =>
    let family := String.mk fam
    { series := some (family ++ "v" ++ String.mk gen)
      family := some family
      size := pyOrS skuName armSkuName }
  | none =>
    let stripped := strRemoveAll sourceText "Standard_"
    let famRun := stripped.toList.takeWhile Char.isAlpha
    let family : Option String := if famRun.isEmpty then none else some (String.mk famRun)
    { series := family, family := family, size := pyOrS skuName armSkuName }


/-- Case-insensitive literal prefix test, for patterns compiled with
`re.IGNORECASE` (the literal is given lowercase). -/
def startsWithCI (pat : List Char) (l : List Char) : Bool :=
  startsWithCL pat (l.map Char.toLower)

/-- Leftmost match of `VCPU_PATTERN = re.compile(r'(\d+)\s*vCPU', re.I)`:
at a start position the match succeeds exactly when a digit begins there
and the maximal digit run, followed by a maximal whitespace run, is
followed by "vcpu" (case-insensitively); a shorter digit or whitespace run
cannot help, since the following character would then be a digit or a
whitespace character where `v` is required.  Returns the digit group
value. -/
def vcpuSearch : List Char → Option ℕ
  | [] => none
  | c :: rest =>
    if c.isDigit then
      let run := (c :: rest).takeWhile Char.isDigit
      let tail := ((c :: rest).dropWhile Char.isDigit).dropWhile Char.isWhitespace
      if startsWithCI "vcpu".toList tail then some (digitsToNat run)
      else vcpuSearch rest
    else vcpuSearch rest

/-- Leftmost match of `RAM_PATTERN = re.compile(r'(\d+)\s*GB', re.I)`,
analogous to `vcpuSearch`. -/
def ramSearch : List Char → Option ℕ
  | [] => none
  | c :: rest =>
    if c.isDigit then
      let run := (c :: rest).takeWhile Char.isDigit
      let tail := ((c :: rest).dropWhile Char.isDigit).dropWhile Char.isWhitespace
      if startsWithCI "gb".toList tail then some (digitsToNat run)
      else ramSearch rest
    else ramSearch rest

/-- Python falsiness of an optional numeric spec field: `None` and `0` are
falsy (the code tests `if not specs["vcpus"]`). -/
def isFalsy : Option ℚ → Bool
  | none => true
  | some q => q == 0

/-- The `parse_vm_specs` method of the scanner, in the configuration where
the lookup module imported successfully (`VM_SPECS_AVAILABLE`): start from
the resolver result (copying each field that is not `None`), then, if a
field is still falsy, fill it from the vCPU / GB regex searches over the
lowercased combined product and SKU text. -/
def parse_vm_specs (productName skuName vmName : String) : Specs :=
  let lookupRes := get_vm_specs (some vmName)
  let specs : Specs :=
    ⟨if lookupRes.vcpus.isSome then lookupRes.vcpus else none,
     if lookupRes.memoryGB.isSome then lookupRes.memoryGB else none⟩
  if isFalsy specs.vcpus || isFalsy specs.memoryGB then
    let searchText := pyLower (productName ++ " " ++ skuName)
    let vcpus :=
      if isFalsy specs.vcpus then
        match vcpuSearch searchText.toList with
        | some n => some ((n : ℕ) : ℚ)
        | none => specs.vcpus
      else specs.vcpus
    let memoryGB :=
      if isFalsy specs.memoryGB then
        match ramSearch searchText.toList with
        | some n => some ((n : ℕ) : ℚ)
        | none => specs.memoryGB
      else specs.memoryGB
    ⟨vcpus, memoryGB⟩
  else specs

/-- The Linux indicator substrings scanned by `determine_os_type`. -/
def linuxIndicators : List String :=
  ["ubuntu", "red hat", "rhel", "suse", "debian", "centos"]

/-- The `determine_os_type` method: "windows" substring wins, then
"linux", then any of the Linux indicators, else "Unknown". -/
def determine_os_type (productName skuName : String) : String :=
  let combined := pyLower (productName ++ " " ++ skuName)
  if strContains combined "windows" then "Windows"
  else if strContains combined "linux" then "Linux"
  else if linuxIndicators.any (fun t => strContains combined t) then "Linux"
  else "Unknown"

/-- The spot indicator substrings of `is_spot_instance`. -/
def spotIndicators : List String := ["spot", "low priority", "low-priority"]

/-- The `is_spot_instance` method: any spot indicator occurs in the
lowercased combined SKU and product text. -/
def is_spot_instance (skuName productName : String) : Bool :=
  let combined := pyLower (skuName ++ " " ++ productName)
  spotIndicators.any (fun t => strContains combined t)


/-- A raw pricing record, with the fields the scanner reads.  `none`
models an absent key (Python `item.get` returning `None` / the given
default); the two price fields carry arbitrary JSON values since the code
defends against non-numeric content there. -/
structure Item where
  serviceName : Option String := none
  unitOfMeasure : Option String := none
  meterName : Option String := none
  productName : Option String := none
  skuName : Option String := none
  armSkuName : Option String := none
  retailPrice : JsonVal := .jnull
  unitPrice : JsonVal := .jnull
  armRegionName : Option String := none
  location : Option String := none
  currencyCode : Option String := none
  meterId : Option String := none
  skuId : Option String := none
  productId : Option String := none
  effectiveStartDate : Option String := none
  offerTermCode : Option String := none
  serviceFamily : Option String := none
  priceType : Option String := none
deriving DecidableEq

/-- The exclusion terms of `is_consumption_pricing`. -/
def exclusionTerms : List String :=
  ["reservation", "sql", "database", "storage", "bandwidth",
   "snapshot", "backup", "oracle", "premium ssd", "managed disk"]

/-- The combined text scanned for exclusion terms: the already lowercased
meter, product and SKU names joined by spaces and lowercased again. -/
def combinedText (item : Item) : String :=
  pyLower (pyLower (item.meterName.getD "") ++ " " ++
           pyLower (item.productName.getD "") ++ " " ++
           pyLower (item.skuName.getD ""))

/-- The price value selected by `item.get("retailPrice") or
item.get("unitPrice") or 0`, by Python truthiness.  The two call sites
write the final default as `0` and `0.0` respectively; both are the number
zero. -/
def selectedPrice (item : Item) : JsonVal :=
  pyOrJ item.retailPrice (pyOrJ item.unitPrice (.jnum 0))

/-- The `is_consumption_pricing` method: require an hourly unit of
measure, no exclusion term in the combined text, and — when the selected
price parses as a float — a price of at most 1000; a parse failure is
passed over and the record kept. -/
def is_consumption_pricing (item : Item) : Bool :=
  let unit := pyLower (item.unitOfMeasure.getD "")
  if ¬ strContains unit "hour" then false
  else if exclusionTerms.any (fun t => strContains (combinedText item) t) then false
  else
    match pyFloat? (selectedPrice item) with
    | some q => if q > 1000 then false else true
    | none => true

/-- The `_should_include_item` method: the record must be Virtual
Machines pricing, pass `is_consumption_pricing`, not be a spot instance
unless spot records are included, and — when a region allow-list is
configured and nonempty (Python truthiness of the list) — carry a region
identifier that matches one allow-list entry case-insensitively. -/
def _should_include_item (item : Item) (includeSpot : Bool)
    (regions : Option (List String)) : Bool :=
  if ¬ (item.serviceName == some "Virtual Machines") then false
  else if ¬ is_consumption_pricing item then false
  else
    let skuName := item.skuName.getD ""
    let productName := item.productName.getD ""
    if ¬ includeSpot && is_spot_instance skuName productName then false
    else
      let rs := regions.getD []
      if rs.isEmpty then true
      else
        let itemRegion := pyOrS (item.armRegionName.getD "") (item.location.getD "")
        if itemRegion = "" then false
        else if (rs.map pyLower).contains (pyLower itemRegion) then true
        else false

/-- The normalized record emitted by `_process_item`. -/
structure Record where
  name : String
  skuName : String
  productName : String
  armSkuName : String
  series : Option String
  family : Option String
  size : String
  os : String
  isSpot : Bool
  vcpus : Option ℚ
  memoryGB : Option ℚ
  pricePerHour : ℚ
  currencyCode : String
  unitOfMeasure : String
  region : String
  meterId : Option String
  skuId : Option String
  productId : Option String
  effectiveStartDate : Option String
  offerTermCode : Option String
  serviceFamily : Option String
  meterName : Option String
  priceType : Option String
deriving DecidableEq

/-- The price a record is built with: the selected price field parsed as a
float, with a parse failure defaulting to 0.0. -/
def resolvedPrice (item : Item) : ℚ :=
  match pyFloat? (selectedPrice item) with
  | some q => q
  | none => 0

/-- The happy path of `_process_item` (its `try` body): extract series
info, specs, OS and spot flag, resolve the price, reject the record if the
price exceeds 1000, and otherwise assemble the normalized record. -/
def _process_item (item : Item) : Option Record :=
  let skuName := item.skuName.getD ""
  let productName := item.productName.getD ""
  let armSkuName := item.armSkuName.getD ""
  let seriesInfo := extract_series_info skuName armSkuName
  let vmName := pyOrS seriesInfo.size (pyOrS skuName armSkuName)
  let specs := parse_vm_specs productName skuName vmName
  let osType := determine_os_type productName skuName
  let isSpot := is_spot_instance skuName productName
  let price := resolvedPrice item
  if price > 1000 then none
  else some
    { name := vmName
      skuName := skuName
      productName := productName
      armSkuName := armSkuName
      series := seriesInfo.series
      family := seriesInfo.family
      size := seriesInfo.size
      os := osType
      isSpot := isSpot
      vcpus := specs.vcpus
      memoryGB := specs.memoryGB
      pricePerHour := price
      currencyCode := item.currencyCode.getD "USD"
      unitOfMeasure := item.unitOfMeasure.getD "1 Hour"
      region := pyOrS (item.armRegionName.getD "") (item.location.getD "")
      meterId := item.meterId
      skuId := item.skuId
      productId := item.productId
      effectiveStartDate := item.effectiveStartDate
      offerTermCode := item.offerTermCode
      serviceFamily := item.serviceFamily
      meterName := item.meterName
      priceType := item.priceType }

/-- The `build_query_filter` method: the OS filter shapes only this query
string, which is sent to the external pricing API. -/
def build_query_filter (osFilter : String) : String :=
  let baseFilter := "serviceName eq \x27Virtual Machines\x27"
  if osFilter = "linux" then baseFilter ++ " and contains(productName, \x27Linux\x27)"
  else if osFilter = "windows" then baseFilter ++ " and contains(productName, \x27Windows\x27)"
  else baseFilter

/-- The per-page classification loop body of `fetch_vm_prices`: keep, in
order, the processed form of every raw item that passes
`_should_include_item`.  The OS filter is in scope in `fetch_vm_prices`
but, as in the source, is used only before the loop (to build the query
string), so it does not occur in the body. -/
def processBatch (osFilter : String) (includeSpot : Bool)
    (regions : Option (List String)) (items : List Item) : List Record :=
  items.filterMap (fun it =>
    if _should_include_item it includeSpot regions then _process_item it else none)

/-- The diagnostic line printed by the `except` branch of `_process_item`:
`print(f"Error processing item: {e}")`, with `e` the exception text.  It
mentions no field of the failing item. -/
def processLogMsg (excMsg : String) : String := "Error processing item: " ++ excMsg

/-- One `_process_item` call under an exception oracle: if the oracle says
an unexpected exception is raised while this item is processed, the
`except Exception` branch yields no record and the diagnostic line;
otherwise the `try` body runs. -/
def processItemRun (item : Item) (exc : Option String) : Option Record × List String :=
  match exc with
  | some e => (none, [processLogMsg e])
  | none => (_process_item item, [])

/-- The per-page loop of `fetch_vm_prices` under an exception oracle
`excOf`: every included item is processed with `processItemRun`; a `none`
result is skipped and the loop always continues with the next item.
Returns the accepted records and the diagnostic lines, each in order. -/
def processBatchExc (includeSpot : Bool) (regions : Option (List String))
    (excOf : Item → Option String) : List Item → List Record × List String
  | [] => ([], [])
  | it :: rest =>
    let tailRes := processBatchExc includeSpot regions excOf rest
    if _should_include_item it includeSpot regions then
      let r := processItemRun it (excOf it)
      (r.1.toList ++ tailRes.1, r.2 ++ tailRes.2)
    else tailRes

/-- Python `round(q, 6)` on the exact rational value: scale by one
million, round half to even (the IEEE default used by `round` on floats),
and scale back.  Implemented on the numerator and denominator with integer
floor division so that it evaluates in the kernel. -/
def pyRound6 (q : ℚ) : ℚ :=
  let n := q.num * 1000000
  let d := (q.den : ℤ)
  let f := Int.fdiv n d
  let r := n - f * d
  let z :=
    if 2 * r < d then f
    else if d < 2 * r then f + 1
    else if f % 2 = 0 then f else f + 1
  mkRat z 1000000

/-- Python `sum` over rationals: fold addition from zero. -/
def listSumQ (l : List ℚ) : ℚ := l.foldl (· + ·) 0

/-- Python `min` over a list, 0 for an empty one (the code guards with
`if prices else 0`). -/
def listMinQ : List ℚ → ℚ
  | [] => 0
  | p :: ps => ps.foldl min p

/-- Python `max` over a list, 0 for an empty one. -/
def listMaxQ : List ℚ → ℚ
  | [] => 0
  | p :: ps => ps.foldl max p

/-- Ascending deduplicated sort, modelling Python `sorted(set(xs))` for
strings. -/
def sortedDistinct (l : List String) : List String :=
  List.insertionSort (· ≤ ·) l.dedup

/-- The collection summary produced by `generate_summary`. -/
structure Summary where
  count : ℕ
  regionsCount : ℕ
  regions : List String
  familiesCount : ℕ
  families : List String
  osTypes : List String
  spotCount : ℕ
  avgPricePerHour : ℚ
  minPricePerHour : ℚ
  maxPricePerHour : ℚ
deriving DecidableEq

/-- The `generate_summary` method.  On our `Record` type `pricePerHour`
is always present, so the comprehension guard `if ... is not None` keeps
every record; the truthiness guards on region, family and OS drop empty
and unresolved values. -/
def generate_summary (items : List Record) : Summary :=
  if items.isEmpty then
    ⟨0, 0, [], 0, [], [], 0, 0, 0, 0⟩
  else
    let prices := items.map (fun r => r.pricePerHour)
    let regions := sortedDistinct ((items.map (fun r => r.region)).filter (fun s => s ≠ ""))
    let families := sortedDistinct ((items.filterMap (fun r => r.family)).filter (fun s => s ≠ ""))
    let osTypes := sortedDistinct ((items.map (fun r => r.os)).filter (fun s => s ≠ ""))
    let avgPrice := if prices.isEmpty then 0 else listSumQ prices / (prices.length : ℚ)
    let spotCount := (items.filter (fun r => r.isSpot)).length
    ⟨items.length, regions.length, regions, families.length, families, osTypes, spotCount,
     pyRound6 avgPrice, pyRound6 (listMinQ prices), pyRound6 (listMaxQ prices)⟩

/-- A minimal includable raw record: Virtual Machines pricing, hourly unit
of measure, a given retail price, everything else absent. -/
def plainItem (p : JsonVal) : Item :=
  { serviceName := some "Virtual Machines", unitOfMeasure := some "1 Hour", retailPrice := p }

/-- The record `_process_item` produces from `plainItem p` when the price
resolves to `price`: every text field empty or defaulted, specs unknown,
OS unknown, not spot. -/
def plainRecord (price : ℚ) : Record :=
  ⟨"", "", "", "", none, none, "", "Unknown", false, none, none, price,
   "USD", "1 Hour", "", none, none, none, none, none, none, none, none⟩

/-- Price selection as the specification words it: prefer the retail price
when it is present and parses, else the unit price when it is present and
parses, else 0.  Second definition for the refinement comparison in C1:
the code instead selects by Python truthiness before parsing. -/
def specDescribedPrice (item : Item) : ℚ :=
  match pyFloat? item.retailPrice with
  | some q => q
  | none =>
    match pyFloat? item.unitPrice with
    | some q => q
    | none => 0

/-- A record whose retail price is a non-numeric (but truthy) string and
whose unit price is 2000: the spec-described selection falls back to 2000,
the code keeps the unparseable string. -/
def c1BadItem : Item :=
  { serviceName := some "Virtual Machines", unitOfMeasure := some "1 Hour",
    retailPrice := .jstr "abc", unitPrice := .jnum 2000 }

/-- An includable record with retail price 2000. -/
def c1HighItem : Item := plainItem (.jnum 2000)

/-- An includable record with retail price 5. -/
def c1OkItem : Item := plainItem (.jnum 5)

/-- A record with a non-hourly unit of measure. -/
def c5NonHourlyItem : Item := { unitOfMeasure := some "1 Month" }

/-- An hourly record whose meter name contains the exclusion terms "sql",
"database" and "storage". -/
def c5ExcludedItem : Item :=
  { serviceName := some "Virtual Machines", unitOfMeasure := some "1 Hour",
    meterName := some "SQL Database Storage" }

/-- Three accepted raw records with prices 0.5, 1.5 and 2.0. -/
def c6Items : List Item :=
  [plainItem (.jnum (mkRat 1 2)), plainItem (.jnum (mkRat 3 2)), plainItem (.jnum 2)]

/-- The normalized records the engine emits for `c6Items`. -/
def c6Records : List Record := processBatch "both" false none c6Items

/-- An includable record carrying the price identifier "m-123". -/
def c7BadItem : Item :=
  { serviceName := some "Virtual Machines", unitOfMeasure := some "1 Hour",
    retailPrice := .jnum 1, meterId := some "m-123" }

/-- An includable record with retail price -5. -/
def c9NegItem : Item := plainItem (.jnum (-5))

/-- An includable record with retail price 3 (for the C9 witness). -/
def c9OkItem : Item := plainItem (.jnum 3)

/-- Both spec fields differ from a literal zero (a resolved zero would
represent absent data as zero). -/
def specsNonZero (s : Specs) : Bool := (s.vcpus != some 0) && (s.memoryGB != some 0)

/-- A successful exact lookup returns an entry of the table, paired with
the looked-up key. -/
theorem lookupSpecsKeyMem {k : String} {e : Specs} (h : lookupSpecs k = some e) :
    (k, e) ∈ VM_SPECS_LOOKUP := by
  unfold lookupSpecs at h
  rcases Option.map_eq_some'.1 h with ⟨pr, hfind, hsnd⟩
  have hkey := List.find?_some hfind
  have hmem := List.mem_of_find?_eq_some hfind
  have hpr : pr = (k, e) := by
    cases pr
    simp only [beq_iff_eq] at hkey
    simp_all
  exact hpr ▸ hmem

/-- A successful substring scan returns an entry of the table. -/
theorem partialScanMem {c : String} {e : Specs} (h : partialScan c = some e) :
    ∃ pr ∈ VM_SPECS_LOOKUP, pr.2 = e := by
  unfold partialScan at h
  rcases Option.map_eq_some'.1 h with ⟨pr, hfind, hsnd⟩
  exact ⟨pr, List.mem_of_find?_eq_some hfind, hsnd⟩

set_option maxRecDepth 4000 in
/-- No entry of the table stores a literal zero in either field. -/
theorem tableNonZero : ∀ pr ∈ VM_SPECS_LOOKUP, specsNonZero pr.2 = true := by decide

set_option maxRecDepth 4000 in
/-- The only table entries leaving a field unresolved are the generic
"spot" and "lowpriority" placeholders, and both their fields are
unresolved. -/
theorem unresolvedEntries :
    ∀ pr ∈ VM_SPECS_LOOKUP, (pr.2.vcpus = none ∨ pr.2.memoryGB = none) →
      (pr.1 = "spot" ∨ pr.1 = "lowpriority") ∧ pr.2 = ⟨none, none⟩ := by decide

/-- The estimation heuristic never produces a zero field. -/
theorem canonicalNonZero (run : List Char) (h : String.mk run ∈ canonicalSizes) :
    specsNonZero ⟨some ((digitsToNat run : ℕ) : ℚ), some (((digitsToNat run * 4 : ℕ)) : ℚ)⟩
      = true := by
  simp only [canonicalSizes, List.mem_cons, List.not_mem_nil, or_false] at h
  rcases h with h | h | h | h | h | h | h | h <;>
    (have hrun : run = _ := congrArg String.toList h; subst hrun; decide)

/-- The numeric fallback never produces a zero field. -/
theorem numericFallbackNonZero (clean : String) :
    specsNonZero (numericFallback clean) = true := by
  simp only [numericFallback]
  split
  · split
    · next hmem => exact canonicalNonZero _ hmem
    · rfl
  · rfl

/-- C2 counterexample: on SKU "Standard_D2s_v3" the series extracted by
the code is not "Dv3" — the underscore before "v3" stops the pattern, so
it matches only "D2". -/
theorem c2_series_counterexample :
    (((extract_series_info "Standard_D2s_v3" "").series == some "Dv3") = false) ∧
    (((extract_series_info "Standard_B1ls" "").series == some "B") = false) := by
  exact ⟨by decide, by decide⟩

/-- C2 amended: series extraction on SKU "Standard_D2s_v3" yields family
"D" and series "Dv2" (the version pattern matches "D2"; the underscore
keeps it from reaching "v3"), and on SKU "Standard_B1ls" the version
pattern does match, namely "B1", so the result is family "B" with series
"Bv1" rather than the alphabetic-run fallback. -/
theorem c2_series_extraction :
    extract_series_info "Standard_D2s_v3" "" =
      ⟨some "Dv2", some "D", "Standard_D2s_v3"⟩ ∧
    extract_series_info "Standard_B1ls" "" =
      ⟨some "Bv1", some "B", "Standard_B1ls"⟩ := by
  exact ⟨by decide, by decide⟩

/-- C4: the precedence chain of the specs resolver on the witness tokens
of the specification: "D2s_v3" resolves by exact table match after
normalization to {2 vCPU, 8 GB}; "16" falls through to the numeric
estimation heuristic {16 vCPU, 64 GB}; "Z999xq" resolves to
unknown/unknown. -/
theorem c4_precedence_examples :
    get_vm_specs (some "D2s_v3") = ⟨some 2, some 8⟩ ∧
    get_vm_specs (some "16") = ⟨some 16, some 64⟩ ∧
    get_vm_specs (some "Z999xq") = ⟨none, none⟩ := by
  exact ⟨by decide, by decide, by decide⟩

/-- C8: for every input token — a string, the empty string, or null — the
specs resolver returns, in each field, either a resolved value or unknown,
and a resolved value is never the literal zero; the embedding is a total
function, matching the contract that the resolver never raises. -/
theorem c8_no_zero_specs (t : Option String) : specsNonZero (get_vm_specs t) = true := by
  match t with
  | none => decide
  | some s =>
    unfold get_vm_specs
    by_cases hs : s = ""
    · simp [hs, specsNonZero]
    · simp only [hs, if_false]
      split
      · next e hl =>
        have hmem := lookupSpecsKeyMem hl
        exact tableNonZero _ hmem
      · split
        · next e hp =>
          rcases partialScanMem hp with ⟨pr, hmem, hsnd⟩
          exact hsnd ▸ tableNonZero _ hmem
        · split
          · split
            · next e hl2 =>
              have hmem := lookupSpecsKeyMem hl2
              exact tableNonZero _ hmem
            · exact numericFallbackNonZero _
          · exact numericFallbackNonZero _

/-- C5: the inclusion test rejects every record whose unit of measure does
not contain "hour" case-insensitively, and rejects every record whose
combined lowercase meter/product/SKU text contains an exclusion term,
regardless of its price or unit. -/
theorem c5_hour_and_exclusions (item : Item) :
    (strContains (pyLower (item.unitOfMeasure.getD "")) "hour" = false →
      is_consumption_pricing item = false) ∧
    (∀ t ∈ exclusionTerms, strContains (combinedText item) t = true →
      is_consumption_pricing item = false) := by
  constructor
  · intro h
    unfold is_consumption_pricing
    simp [h]
  · intro t hmem ht
    unfold is_consumption_pricing
    by_cases hh : strContains (pyLower (item.unitOfMeasure.getD "")) "hour"
    · have hany : exclusionTerms.any (fun u => strContains (combinedText item) u) = true :=
        List.any_eq_true.2 ⟨t, hmem, ht⟩
      simp [hh, hany]
    · simp [hh]

/-- C5 witness: a record with unit of measure "1 Month" is rejected, and a
record whose meter name is "SQL Database Storage" is rejected. -/
theorem c5_hour_and_exclusions_witness :
    is_consumption_pricing c5NonHourlyItem = false ∧
    is_consumption_pricing c5ExcludedItem = false :=
  ⟨(c5_hour_and_exclusions c5NonHourlyItem).1 (by decide),
   (c5_hour_and_exclusions c5ExcludedItem).2 "sql" (by decide) (by decide)⟩

/-- C1 counterexample: for the record with retail price the non-numeric
string "abc" and unit price 2000, the price as described by the claim
(prefer retail, fall back to unit when retail is absent or unparseable)
is 2000 > 1000, yet the inclusion test accepts the record and record
building emits it with price 0 — the code selects by Python truthiness,
so the unparseable retail string shadows the unit price and the parse
failure is passed over. -/
theorem c1_price_counterexample :
    (1000 : ℚ) < specDescribedPrice c1BadItem ∧
    is_consumption_pricing c1BadItem = true ∧
    Option.map Record.pricePerHour (_process_item c1BadItem) = some 0 := by
  exact ⟨by decide, by decide, by decide⟩

/-- C1 amended: the price actually used is the first Python-truthy value
of retailPrice, unitPrice, 0; whenever that value parses to a float
greater than 1000 the record is rejected both by the inclusion test and,
independently, at record building; and every emitted record has
pricePerHour at most 1000.  (An unparseable selected value is not
rejected: the inclusion test passes over the failure and record building
prices the record at 0.) -/
theorem c1_price_ceiling (item : Item) :
    (∀ q : ℚ, pyFloat? (selectedPrice item) = some q → 1000 < q →
      is_consumption_pricing item = false ∧ _process_item item = none) ∧
    (∀ r : Record, _process_item item = some r → r.pricePerHour ≤ 1000) := by
  constructor
  · intro q hq hgt
    have hr : resolvedPrice item = q := by unfold resolvedPrice; rw [hq]
    constructor
    · unfold is_consumption_pricing
      by_cases hh : strContains (pyLower (item.unitOfMeasure.getD "")) "hour"
      · by_cases he : exclusionTerms.any (fun t => strContains (combinedText item) t)
        · simp [hh, he]
        · simp [hh, he, hq, hgt]
      · simp [hh]
    · simp only [_process_item]
      simp [hr, hgt]
  · intro r hr
    simp only [_process_item] at hr
    split at hr
    · exact Option.noConfusion hr
    · next hle =>
      have hpp : r.pricePerHour = resolvedPrice item := by
        injection hr with h
        rw [← h]
      rw [hpp]
      exact le_of_not_lt hle

/-- C1 witness: a record with retail price 2000 is rejected by both
checks, and the record emitted for retail price 5 respects the ceiling. -/
theorem c1_price_ceiling_witness :
    (is_consumption_pricing c1HighItem = false ∧ _process_item c1HighItem = none) ∧
    (plainRecord 5).pricePerHour ≤ 1000 :=
  ⟨(c1_price_ceiling c1HighItem).1 2000 (by decide) (by decide),
   (c1_price_ceiling c1OkItem).2 (plainRecord 5) (by decide)⟩

/-- C9 counterexample: a Virtual Machines record with hourly unit and
retail price -5 passes the inclusion test and is emitted with the
negative pricePerHour -5 — the code checks only the 1000 ceiling, never a
lower bound. -/
theorem c9_negative_price_counterexample :
    _should_include_item c9NegItem false none = true ∧
    Option.map Record.pricePerHour (_process_item c9NegItem) = some (-5) ∧
    (-5 : ℚ) < 0 := by
  exact ⟨by decide, by decide, by decide⟩

/-- C9 amended: the emitted pricePerHour equals the resolved price of the
raw record, so it is non-negative exactly when the resolved price is;
nothing in the code rejects a negative price. -/
theorem c9_nonneg_price (item : Item) (r : Record) (h0 : 0 ≤ resolvedPrice item)
    (hp : _process_item item = some r) : 0 ≤ r.pricePerHour := by
  simp only [_process_item] at hp
  split at hp
  · exact Option.noConfusion hp
  · have hpp : r.pricePerHour = resolvedPrice item := by
      injection hp with h
      rw [← h]
    rw [hpp]
    exact h0

/-- C9 witness: the record emitted for retail price 3 has a non-negative
price. -/
theorem c9_nonneg_price_witness : 0 ≤ (plainRecord 3).pricePerHour :=
  c9_nonneg_price c9OkItem (plainRecord 3) (by decide) (by decide)

/-- C10: the per-item classification and enrichment is identical for
every pair of OS-filter values drawn from {"linux", "windows", "both"} —
the filter never occurs in the loop body, which applies only
`_should_include_item` and `_process_item` to each record — while
`build_query_filter` maps the three values to the documented query
strings sent to the external pricing API. -/
theorem c10_os_filter_noninterference (of1 of2 : String)
    (h1 : of1 ∈ ["linux", "windows", "both"]) (h2 : of2 ∈ ["linux", "windows", "both"])
    (includeSpot : Bool) (regions : Option (List String)) (items : List Item) :
    processBatch of1 includeSpot regions items = processBatch of2 includeSpot regions items ∧
    build_query_filter "linux" =
      "serviceName eq \x27Virtual Machines\x27 and contains(productName, \x27Linux\x27)" ∧
    build_query_filter "windows" =
      "serviceName eq \x27Virtual Machines\x27 and contains(productName, \x27Windows\x27)" ∧
    build_query_filter "both" = "serviceName eq \x27Virtual Machines\x27" := by
  exact ⟨rfl, rfl, rfl, rfl⟩

/-- C10 witness: the classification outcome for a concrete record batch
is the same under the "linux" and "windows" filters. -/
theorem c10_os_filter_noninterference_witness :
    processBatch "linux" false none c6Items = processBatch "windows" false none c6Items ∧
    build_query_filter "linux" =
      "serviceName eq \x27Virtual Machines\x27 and contains(productName, \x27Linux\x27)" ∧
    build_query_filter "windows" =
      "serviceName eq \x27Virtual Machines\x27 and contains(productName, \x27Windows\x27)" ∧
    build_query_filter "both" = "serviceName eq \x27Virtual Machines\x27" :=
  c10_os_filter_noninterference "linux" "windows" (by decide) (by decide) false none c6Items

/-- C3: for every token whose normalized form has an exact table match
whose entry leaves a field unresolved, the resolver output agrees,
independently per field, with falling back to the substring scan over the
table keys in insertion order for the still-unresolved field.  (In the
code the exact-match branch returns the entry as is; the agreement holds
because the only unresolved entries are the "spot" and "lowpriority"
placeholders, on whose names the substring scan returns those same
placeholder specs.) -/
theorem c3_exact_match_fallback (s : String) (e : Specs)
    (hl : lookupSpecs (cleanName s) = some e)
    (hu : e.vcpus = none ∨ e.memoryGB = none) :
    (get_vm_specs (some s)).vcpus =
      (e.vcpus.orElse (fun _ => ((partialScan (cleanName s)).getD ⟨none, none⟩).vcpus)) ∧
    (get_vm_specs (some s)).memoryGB =
      (e.memoryGB.orElse (fun _ => ((partialScan (cleanName s)).getD ⟨none, none⟩).memoryGB)) := by
  have hmem := lookupSpecsKeyMem hl
  have hkey := unresolvedEntries _ hmem hu
  have hs : s ≠ "" := by
    intro h
    rw [h] at hl
    have : lookupSpecs (cleanName "") = none := by decide
    rw [this] at hl
    exact Option.noConfusion hl
  have hg : get_vm_specs (some s) = e := by
    unfold get_vm_specs
    simp only [hs, if_false]
    rw [hl]
  rw [hg]
  rcases hkey with ⟨hname, hspecs⟩
  simp only at hname hspecs
  subst hspecs
  rcases hname with hname | hname <;>
    · rw [hname]
      constructor <;> decide

/-- C3 witness: the token "Spot" normalizes to "spot", whose exact table
entry leaves both fields unresolved; the resolver result agrees per field
with the substring-scan fallback. -/
theorem c3_exact_match_fallback_witness :
    (get_vm_specs (some "Spot")).vcpus =
      ((Specs.mk none none).vcpus.orElse
        (fun _ => ((partialScan (cleanName "Spot")).getD ⟨none, none⟩).vcpus)) ∧
    (get_vm_specs (some "Spot")).memoryGB =
      ((Specs.mk none none).memoryGB.orElse
        (fun _ => ((partialScan (cleanName "Spot")).getD ⟨none, none⟩).memoryGB)) :=
  c3_exact_match_fallback "Spot" ⟨none, none⟩ (by decide) (Or.inl rfl)

/-- C7 counterexample: when processing the item whose price identifier is
"m-123" raises an exception "boom", the logged warning is the fixed line
"Error processing item: boom", which does not contain the price
identifier — the item is skipped but the warning does not identify it. -/
theorem c7_log_counterexample :
    processItemRun c7BadItem (some "boom") = (none, [processLogMsg "boom"]) ∧
    c7BadItem.meterId = some "m-123" ∧
    strContains (processLogMsg "boom") "m-123" = false :=
  ⟨rfl, rfl, by decide⟩

/-- C7 amended: an unexpected exception while one included item is
processed is caught at item granularity: a warning is logged (carrying the
exception text, but no identifier of the item), that record alone is
skipped, and the batch continues — the records collected are exactly those
of the items before it followed by those of the items after it. -/
theorem c7_batch_continues (includeSpot : Bool) (regions : Option (List String))
    (excOf : Item → Option String) (pre post : List Item) (item : Item) (e : String)
    (hexc : excOf item = some e)
    (hinc : _should_include_item item includeSpot regions = true) :
    (processBatchExc includeSpot regions excOf (pre ++ item :: post)).1
      = (processBatchExc includeSpot regions excOf pre).1
        ++ (processBatchExc includeSpot regions excOf post).1 ∧
    processLogMsg e ∈ (processBatchExc includeSpot regions excOf (pre ++ item :: post)).2 := by
  induction pre with
  | nil =>
    simp only [List.nil_append, processBatchExc, hinc, if_true, processItemRun, hexc]
    constructor
    · simp
    · simp
  | cons it rest ih =>
    rcases ih with ⟨ih1, ih2⟩
    simp only [List.cons_append, processBatchExc]
    by_cases hit : _should_include_item it includeSpot regions
    · simp only [hit, if_true]
      constructor
      · simp [ih1, List.append_assoc]
      · simp only [List.mem_append] at ih2 ⊢
        tauto
    · simp only [hit, if_false]
      exact ⟨ih1, ih2⟩

/-- C7 witness: a one-item batch whose only included item fails with
exception "boom" yields no records but logs the warning line, and the
records equal those of the surrounding (empty) sub-batches. -/
theorem c7_batch_continues_witness :
    (processBatchExc false none (fun _ => some "boom") ([] ++ c7BadItem :: [])).1
      = (processBatchExc false none (fun _ => some "boom") []).1
        ++ (processBatchExc false none (fun _ => some "boom") []).1 ∧
    processLogMsg "boom" ∈
      (processBatchExc false none (fun _ => some "boom") ([] ++ c7BadItem :: [])).2 :=
  c7_batch_continues false none (fun _ => some "boom") [] [] c7BadItem "boom" rfl (by decide)

/-- The three accepted records of the C6 scenario, explicitly. -/
theorem c6RecordsEq :
    c6Records = [plainRecord (mkRat 1 2), plainRecord (mkRat 3 2), plainRecord 2] := by
  decide

/-- The average price of the C6 summary: (0.5 + 1.5 + 2.0) / 3 = 4/3,
rounded to six decimal places as 1.333333. -/
theorem c6AvgValue :
    (generate_summary c6Records).avgPricePerHour = mkRat 1333333 1000000 := by
  rw [c6RecordsEq]
  show pyRound6 (listSumQ [mkRat 1 2, mkRat 3 2, 2] / ((3 : ℕ) : ℚ)) = mkRat 1333333 1000000
  have hsum : listSumQ [mkRat 1 2, mkRat 3 2, (2 : ℚ)] = 4 := by
    simp only [listSumQ, List.foldl]
    rw [Rat.mkRat_eq_div, Rat.mkRat_eq_div]
    norm_num
  rw [hsum]
  have h3 : ((3 : ℕ) : ℚ) = 3 := by norm_num
  rw [h3]
  have hdiv : (4 : ℚ) / 3 = mkRat 4 3 := by
    rw [Rat.mkRat_eq_div]
    norm_num
  rw [hdiv]
  decide

/-- C6 counterexample: the average over prices [0.5, 1.5, 2.0] is not
1.166667 — the true average is 4/3, which rounds to 1.333333. -/
theorem c6_avg_counterexample :
    ((generate_summary c6Records).avgPricePerHour == mkRat 1166667 1000000) = false := by
  rw [c6AvgValue]
  decide

/-- C6 amended: the summary over the three accepted records with prices
[0.5, 1.5, 2.0] has avgPricePerHour = 1.333333 (rounded to six places),
minPricePerHour = 0.5 and maxPricePerHour = 2.0. -/
theorem c6_summary_values :
    (generate_summary c6Records).avgPricePerHour = mkRat 1333333 1000000 ∧
    (generate_summary c6Records).minPricePerHour = mkRat 1 2 ∧
    (generate_summary c6Records).maxPricePerHour = 2 := by
  refine ⟨c6AvgValue, ?_, ?_⟩
  · rw [c6RecordsEq]
    decide
  · rw [c6RecordsEq]
    decide
